import Mathlib

/-!
# Verification of the Meshling connection/transport/event core

Shallow embedding of the connection subsystem of the Meshling repository:

* `meshling/interfaces/base_interface.py` — `ConnectionStatus`, `BaseInterface`
  (`_update_status`, `device_info`)
* `meshling/interfaces/serial_interface.py` — `SerialInterface.connect` / `.disconnect`
* `meshling/interfaces/tcp_interface.py` — `TCPInterface.connect` / `.disconnect`
* `meshling/interfaces/auto_detector.py` — `AutoDetector.auto_detect`
* `meshling/core/event_bus.py` — `EventBus` (start/stop/subscribe/emit/dispatch)
* `meshling/core/connection_manager.py` — `ConnectionManager`
  (auto_connect, connect_serial, connect_tcp, disconnect, send_message,
  _set_interface, _on_connection_status_changed)

Python exceptions are modelled with `Except PyErr`; the behaviour of the
external `meshtastic` driver is a parameter (`DriverOpen`).  A central point
of the embedding: in `serial_interface.py` the *synchronous* method
`_update_status` is called with `await`.  In Python, awaiting the `None`
returned by a synchronous call raises `TypeError`; `awaitSyncNone` models
exactly that expression.
-/

deriving instance DecidableEq for Except

namespace Meshling

/-- `ConnectionStatus` enumeration from `base_interface.py`. -/
inductive ConnectionStatus where
  | disconnected
  | connecting
  | connected
  | failed
  | reconnecting
deriving DecidableEq, Repr

/-- Python exceptions relevant to this core. -/
inductive PyErr where
  | typeError            -- e.g. `await` applied to a non-awaitable (`None`)
  | connError (msg : String)   -- SerialConnectionError / TCPConnectionError
  | other (msg : String)
deriving DecidableEq, Repr

/-- Human-readable rendering, used where the code does `str(e)`. -/
def PyErr.str : PyErr → String
  | .typeError => "object NoneType can't be used in 'await' expression"
  | .connError m => m
  | .other m => m

/-- The two concrete Transport variants. -/
inductive IfaceKind where
  | serial
  | tcp
deriving DecidableEq, Repr

/-- State of one `BaseInterface` object (fields of the Python instance that
the claims observe).  `notifications` records, in order, the values passed to
the installed connection callback by `_update_status`. -/
structure IfaceState where
  kind : IfaceKind
  status : ConnectionStatus := .disconnected
  hasInterface : Bool := false        -- `self._interface is not None`
  monitorStarted : Bool := false      -- `self._monitor_task` running
  packetCallbackSet : Bool := false
  connectionCallbackSet : Bool := false
  deviceInfoSet : Bool := false       -- `self._device_info` populated
  notifications : List ConnectionStatus := []
deriving DecidableEq, Repr

/-- `BaseInterface._update_status` (base_interface.py lines 95–110): if the new
status differs from the current one, store it and invoke the connection
callback with it (callback exceptions are caught inside, so this never
raises); otherwise do nothing. -/
def updateStatus (s : IfaceState) (new : ConnectionStatus) : IfaceState :=
  if s.status = new then s
  else
    { s with
      status := new,
      notifications :=
        s.notifications ++ (if s.connectionCallbackSet then [new] else []) }

/-- Models the Python expression `await self._update_status(...)` found in
`serial_interface.py`: the synchronous call itself has already run (its state
effect is applied separately), and the `await` of the `None` it returned
raises `TypeError`. -/
def awaitSyncNone : Except PyErr Unit := .error .typeError

/-- Behaviour of the blocking driver-open call
(`meshtastic.serial_interface.SerialInterface(...)` /
`meshtastic.tcp_interface.TCPInterface(...)` run in an executor):
it may return a session handle, return a falsy value, or raise. -/
inductive DriverOpen where
  | ok
  | retNone
  | raises (msg : String)
deriving DecidableEq, Repr

/-- `except Exception` handler of `SerialInterface.connect`
(serial_interface.py lines 61–64): logs, runs
`await self._update_status(FAILED)` — the synchronous call sets the status and
fires the callback, then the `await` of its `None` result raises `TypeError`,
which propagates out of `connect` — and would `return False` only if that
`await` succeeded. -/
def serialConnectHandler (s : IfaceState) : Except PyErr Bool × IfaceState :=
  let s := updateStatus s .failed
  match awaitSyncNone with
  | .ok _ => (.ok false, s)
  | .error e => (.error e, s)

/-- `SerialInterface.connect` (serial_interface.py lines 25–64).  The first
statement of the `try` block is `await self._update_status(CONNECTING)`: the
synchronous call runs (status becomes CONNECTING, callback fires), then the
`await` of `None` raises `TypeError`, sending control to the `except` handler.
The rest of the `try` body is kept for structural fidelity but is unreachable
at runtime. -/
def serialConnect (d : DriverOpen) (s : IfaceState) :
    Except PyErr Bool × IfaceState :=
  let s := updateStatus s .connecting
  match awaitSyncNone with
  | .error _ => serialConnectHandler s
  | .ok _ =>
    match d with
    | .raises _ => serialConnectHandler s
    | .retNone =>
      -- `if self._interface:` is false → `raise SerialConnectionError` → handler
      serialConnectHandler { s with hasInterface := false }
    | .ok =>
      let s := { s with hasInterface := true, packetCallbackSet := s.packetCallbackSet,
                        deviceInfoSet := true, monitorStarted := true }
      let s := updateStatus s .connected
      match awaitSyncNone with
      | .error _ => serialConnectHandler s
      | .ok _ => (.ok true, s)

/-- `SerialInterface.disconnect` (serial_interface.py lines 66–89): cancels the
monitor task, closes the driver handle (close errors are caught; the `finally`
clears `self._interface`), then runs `await self._update_status(DISCONNECTED)`
— the synchronous call updates the status, and the `await` of its `None`
result raises `TypeError` out of `disconnect`. -/
def serialDisconnect (s : IfaceState) : Except PyErr Unit × IfaceState :=
  let s := { s with monitorStarted := false }
  let s := { s with hasInterface := false }
  let s := updateStatus s .disconnected
  match awaitSyncNone with
  | .ok _ => (.ok (), s)
  | .error e => (.error e, s)

/-- `TCPInterface.connect` (tcp_interface.py lines 26–66).  Here
`_update_status` is called without `await`, so the method really does catch
every failure and return a boolean. -/
def tcpConnect (d : DriverOpen) (s : IfaceState) :
    Except PyErr Bool × IfaceState :=
  let s := updateStatus s .connecting
  match d with
  | .raises _ =>
    -- `except Exception`: log, status := FAILED, return False
    (.ok false, updateStatus s .failed)
  | .retNone =>
    -- `if self._interface:` false → `raise TCPConnectionError` → except branch
    (.ok false, updateStatus { s with hasInterface := false } .failed)
  | .ok =>
    let s := { s with hasInterface := true, deviceInfoSet := true,
                      monitorStarted := true }
    (.ok true, updateStatus s .connected)

/-- `TCPInterface.disconnect` (tcp_interface.py lines 68–91): cancels the
monitor, closes the handle (errors caught, handle cleared), sets the status to
DISCONNECTED synchronously.  Never raises. -/
def tcpDisconnect (s : IfaceState) : Except PyErr Unit × IfaceState :=
  let s := { s with monitorStarted := false }
  let s := { s with hasInterface := false }
  (.ok (), updateStatus s .disconnected)

/-- Dynamic dispatch of `await self._interface.connect()`. -/
def ifaceConnect (d : DriverOpen) (s : IfaceState) :
    Except PyErr Bool × IfaceState :=
  match s.kind with
  | .serial => serialConnect d s
  | .tcp => tcpConnect d s

/-- Dynamic dispatch of `await self._interface.disconnect()`. -/
def ifaceDisconnect (s : IfaceState) : Except PyErr Unit × IfaceState :=
  match s.kind with
  | .serial => serialDisconnect s
  | .tcp => tcpDisconnect s

/-! ## Event bus (`meshling/core/event_bus.py`) -/

/-- The `EventType` members that this core emits or that the claims mention
(event_bus.py lines 12–55; the remaining members play no role in the claims
and are represented by `otherType`). -/
inductive EventKind where
  | connectionEstablished
  | connectionLost
  | connectionFailed
  | packetReceived
  | packetSent
  | packetFailed
  | deviceStatusChanged
  | otherType (name : String)
deriving DecidableEq, Repr

/-- A value stored in an event's `data` mapping. -/
inductive PyVal where
  | str (s : String)
  | num (n : Nat)
  | noneVal
deriving DecidableEq, Repr

/-- `data` mapping of an event, as an association list. -/
abbrev EvData := List (String × PyVal)

/-- An `Event` as queued on the bus: its type and its data.  (The timestamp
field plays no role in any claim.) -/
abbrev Ev := EventKind × EvData

/-- A subscriber callback: an identity plus whether invoking it raises
(`_handle_event` catches the exception and continues). -/
structure Callback where
  id : Nat
  raises : Bool := false
deriving DecidableEq, Repr

/-- One callback invocation `callback(event)` inside the dispatch loop of
`EventBus._handle_event`: the invocation happens, and it may raise. -/
def invokeCallback (cb : Callback) (e : Ev) : Except PyErr Unit × (Nat × Ev) :=
  (if cb.raises then .error (.other "callback error") else .ok (), (cb.id, e))

/-- The `for callback in subscribers` loop of `EventBus._handle_event`
(event_bus.py lines 167–174): each callback is invoked in order inside a
`try`; a raising callback is caught and logged and the loop continues with the
remaining callbacks.  Returns the list of invocations performed, in order. -/
def runCallbacks : List Callback → Ev → List (Nat × Ev)
  | [], _ => []
  | cb :: rest, e =>
    match invokeCallback cb e with
    | (.ok _, inv) => inv :: runCallbacks rest e
    | (.error _, inv) =>
      -- `except Exception`: logged; dispatch continues
      inv :: runCallbacks rest e

/-- `self._subscribers.get(event.type, [])`: the per-type subscriber list, in
subscription order.  The dict of per-type lists is modelled as one list of
(type, callback) pairs in subscription order; filtering by type yields exactly
the per-type list `subscribe` built. -/
def subscribersFor (subs : List (EventKind × Callback)) (t : EventKind) :
    List Callback :=
  (subs.filter (fun p => decide (p.1 = t))).map (·.2)

/-- `EventBus._handle_event` (event_bus.py lines 154–174): look up the
subscribers for the event's type (none → return, no invocations) and invoke
each in order, catching callback errors. -/
def handleEvent (subs : List (EventKind × Callback)) (e : Ev) :
    List (Nat × Ev) :=
  runCallbacks (subscribersFor subs e.1) e

/-- Operations on the bus.  `processOne` is one iteration of the consumer loop
`_process_events`: if the bus is running and an event is queued, dequeue it
and dispatch it (a `get` timeout, or a stopped bus, does nothing). -/
inductive BusOp where
  | start
  | stop
  | subscribe (t : EventKind) (cb : Callback)
  | emit (t : EventKind) (d : EvData)
  | processOne
deriving DecidableEq, Repr

/-- State of the `EventBus` object: the `_running` flag, the pending queue,
the subscriber mapping, plus the history of callback invocations performed by
the consumer (`delivered`). -/
structure BusState where
  running : Bool := false
  queue : List Ev := []
  subs : List (EventKind × Callback) := []
  delivered : List (Nat × Ev) := []
deriving DecidableEq, Repr

/-- One step of the bus, following event_bus.py:
`start` (lines 79–86) only flips `_running` and spawns the consumer;
`stop` (lines 88–102) only flips `_running` and cancels the consumer — the
queue is left untouched (nothing drains it);
`subscribe` (lines 104–115) appends to the per-type list;
`emit` (lines 131–140) enqueues unconditionally (it does not check
`_running`);
`processOne` (lines 142–152) dequeues and handles one event, only while
`_running` is true. -/
def stepBus (s : BusState) (op : BusOp) : BusState :=
  match op with
  | .start => if s.running then s else { s with running := true }
  | .stop => if s.running then { s with running := false } else s
  | .subscribe t cb => { s with subs := s.subs ++ [(t, cb)] }
  | .emit t d => { s with queue := s.queue ++ [(t, d)] }
  | .processOne =>
    if s.running then
      match s.queue with
      | [] => s
      | e :: rest =>
        { s with queue := rest, delivered := s.delivered ++ handleEvent s.subs e }
    else s

/-- Run a sequence of bus operations from a state. -/
def runBus (s : BusState) (ops : List BusOp) : BusState :=
  ops.foldl stepBus s

/-! ## Connection manager (`meshling/core/connection_manager.py`) -/

/-- The stored `_connection_params` dictionary: `{'type': 'serial', 'port': p}`,
`{'type': 'tcp', 'host': h, 'port': p}` or `{'type': 'auto'}`. -/
inductive ConnParams where
  | serialParams (port : String)
  | tcpParams (host : String) (port : Nat)
  | autoParams
deriving DecidableEq, Repr

/-- State of the `ConnectionManager` object. -/
structure CMState where
  iface : Option IfaceState := none
  reconnectTaskActive : Bool := false
  autoReconnect : Bool := true
  connParams : Option ConnParams := none
deriving DecidableEq, Repr

/-- `ConnectionManager.is_connected` (connection_manager.py lines 30–34). -/
def cmIsConnected (st : CMState) : Bool :=
  match st.iface with
  | some i => decide (i.status = ConnectionStatus.connected)
  | none => false

/-- `ConnectionManager._set_interface` (connection_manager.py lines 244–260):
disconnect the existing interface if any, install the new one, set both
callbacks on it.  If the old interface's `disconnect` raises (the serial
variant does), the exception propagates and the new interface is never
installed; the old object — mutated in place by its partial disconnect —
remains `self._interface`.  Returns the propagated error or unit, the new
manager state, and the retired interface's final state (if one was
replaced). -/
def cmSetInterface (st : CMState) (newIf : IfaceState) :
    Except PyErr Unit × CMState × Option IfaceState :=
  match st.iface with
  | some old =>
    match ifaceDisconnect old with
    | (.error e, old2) => (.error e, { st with iface := some old2 }, none)
    | (.ok _, old2) =>
      let installed := { newIf with packetCallbackSet := true,
                                    connectionCallbackSet := true }
      (.ok (), { st with iface := some installed }, some old2)
  | none =>
    let installed := { newIf with packetCallbackSet := true,
                                  connectionCallbackSet := true }
    (.ok (), { st with iface := some installed }, none)

/-- Result of a manager-level connect attempt: the boolean return, the new
manager state, the bus events emitted by the manager, and the final state of
a transport retired by `_set_interface` (if any). -/
structure CMConnectResult where
  ret : Bool
  st : CMState
  emitted : List Ev
  retired : Option IfaceState
deriving DecidableEq, Repr

/-- `ConnectionManager.connect_tcp` (connection_manager.py lines 113–150):
construct a fresh `TCPInterface`, attempt its `connect` first; only when that
returns true call `_set_interface` (which is where any previously active
transport gets disconnected), record the parameters and emit
CONNECTION_ESTABLISHED.  On a false return, or on any exception (caught by
the method's `except`), emit CONNECTION_FAILED and return false — leaving
whatever `self._interface` held untouched.
The new interface's `device_info` sub-dictionary in the emitted data is not
modelled; the string fields are. -/
def cmConnectTcp (host : String) (port : Nat) (d : DriverOpen) (st : CMState) :
    CMConnectResult :=
  let newIf : IfaceState := { kind := .tcp }
  match tcpConnect d newIf with
  | (.ok true, i) =>
    match cmSetInterface st i with
    | (.error e, st2, old2) =>
      -- exception from the old transport's disconnect, caught by `except`
      { ret := false, st := st2,
        emitted := [(.connectionFailed, [("error", .str e.str)])],
        retired := old2 }
    | (.ok _, st2, old2) =>
      let st3 := { st2 with connParams := some (.tcpParams host port) }
      { ret := true, st := st3,
        emitted := [(.connectionEstablished,
          [("interface_type", .str "tcp"), ("host", .str host),
           ("port", .num port)])],
        retired := old2 }
  | (.ok false, _) =>
    { ret := false, st := st,
      emitted := [(.connectionFailed,
        [("error", .str ("Failed to connect to " ++ host ++ ":" ++ toString port))])],
      retired := none }
  | (.error e, _) =>
    -- unreachable: tcpConnect catches everything; kept for totality
    { ret := false, st := st,
      emitted := [(.connectionFailed, [("error", .str e.str)])],
      retired := none }

/-- `ConnectionManager.connect_serial` (connection_manager.py lines 76–111):
construct a fresh `SerialInterface(port)` and attempt its `connect` first;
only on a true return call `_set_interface`, record the parameters and emit
CONNECTION_ESTABLISHED; on a false return emit CONNECTION_FAILED; any
exception — in particular the `TypeError` that `SerialInterface.connect`
always raises — is caught by the method's `except`, which emits
CONNECTION_FAILED{'error': str(e)} and returns false, leaving the manager
state untouched. -/
def cmConnectSerial (port : String) (d : DriverOpen) (st : CMState) :
    CMConnectResult :=
  match serialConnect d { kind := .serial } with
  | (.error e, _) =>
    { ret := false, st := st,
      emitted := [(.connectionFailed, [("error", .str e.str)])],
      retired := none }
  | (.ok true, i) =>
    match cmSetInterface st i with
    | (.error e, st2, old2) =>
      { ret := false, st := st2,
        emitted := [(.connectionFailed, [("error", .str e.str)])],
        retired := old2 }
    | (.ok _, st2, old2) =>
      let st3 := { st2 with connParams := some (.serialParams port) }
      { ret := true, st := st3,
        emitted := [(.connectionEstablished,
          [("interface_type", .str "serial"), ("port", .str port)])],
        retired := old2 }
  | (.ok false, _) =>
    { ret := false, st := st,
      emitted := [(.connectionFailed,
        [("error", .str ("Failed to connect to " ++ port))])],
      retired := none }

/-- Result of `ConnectionManager.send_message`. -/
structure CMSendResult where
  ret : Bool
  st : CMState
  emitted : List Ev
  transportSendCalled : Bool
deriving DecidableEq, Repr

/-- `ConnectionManager.send_message` (connection_manager.py lines 176–213):
when `is_connected` is false, emit PACKET_FAILED{'error': 'Not connected'}
and return false without touching the transport.  Otherwise delegate to
`self._interface.send_message` — whose outcome is the parameter
`sendOutcome` — and emit PACKET_SENT or PACKET_FAILED accordingly. -/
def cmSendMessage (text : String) (destination : Option String)
    (sendOutcome : Except PyErr Bool) (st : CMState) : CMSendResult :=
  if cmIsConnected st then
    match sendOutcome with
    | .ok true =>
      { ret := true, st := st,
        emitted := [(.packetSent,
          [("text", .str text),
           ("destination", match destination with
                           | some dst => .str dst
                           | none => .noneVal)])],
        transportSendCalled := true }
    | .ok false =>
      { ret := false, st := st,
        emitted := [(.packetFailed, [("error", .str "Send failed")])],
        transportSendCalled := true }
    | .error e =>
      { ret := false, st := st,
        emitted := [(.packetFailed, [("error", .str e.str)])],
        transportSendCalled := true }
  else
    { ret := false, st := st,
      emitted := [(.packetFailed, [("error", .str "Not connected")])],
      transportSendCalled := false }

/-- Result of `ConnectionManager.disconnect`: the exception it propagates (if
any), the final manager state and the events emitted. -/
structure CMDisconnectResult where
  err : Except PyErr Unit
  st : CMState
  emitted : List Ev
deriving DecidableEq, Repr

/-- `ConnectionManager.disconnect` (connection_manager.py lines 152–174):
set `_auto_reconnect` to false, cancel and await the reconnect task, then
`await self._interface.disconnect()` if an interface is present — this call is
NOT wrapped in a `try`, so an exception from it (the serial variant raises
`TypeError`) propagates out of `disconnect`, skipping the clearing of
`_connection_params` and the CONNECTION_LOST emission.  With no interface, or
a TCP interface, the method completes: clears the interface and the stored
parameters and emits CONNECTION_LOST{'reason': 'user_requested'}. -/
def cmDisconnect (st : CMState) : CMDisconnectResult :=
  let st := { st with autoReconnect := false, reconnectTaskActive := false }
  match st.iface with
  | some i =>
    match ifaceDisconnect i with
    | (.error e, i2) =>
      { err := .error e, st := { st with iface := some i2 }, emitted := [] }
    | (.ok _, _) =>
      { err := .ok (),
        st := { st with iface := none, connParams := none },
        emitted := [(.connectionLost, [("reason", .str "user_requested")])] }
  | none =>
    { err := .ok (),
      st := { st with connParams := none },
      emitted := [(.connectionLost, [("reason", .str "user_requested")])] }

/-! ## Auto-detection (`meshling/interfaces/auto_detector.py`) -/

/-- A device `auto_detect` settles on. -/
inductive DetectedDevice where
  | serialDev (port : String)
  | tcpDev (host : String) (port : Nat)
deriving DecidableEq, Repr

/-- The serial loop of `AutoDetector.auto_detect` (auto_detector.py lines
150–159): for each candidate port construct a fresh `SerialInterface` and
`await interface.connect()`; return it on true; on false
`await interface.disconnect()` and continue.  Neither call is wrapped in a
`try`, so an exception from either propagates out of `auto_detect`.
`sd` gives the driver-open behaviour for each port. -/
def autoDetectSerialLoop (sd : String → DriverOpen) :
    List String → Except PyErr (Option String)
  | [] => .ok none
  | p :: rest =>
    match serialConnect (sd p) { kind := .serial } with
    | (.error e, _) => .error e
    | (.ok true, _) => .ok (some p)
    | (.ok false, i) =>
      match serialDisconnect i with
      | (.error e, _) => .error e
      | (.ok _, _) => autoDetectSerialLoop sd rest

/-- The TCP loop of `AutoDetector.auto_detect` (auto_detector.py lines
163–173), same shape as the serial loop with `TCPInterface`. -/
def autoDetectTcpLoop (td : String → Nat → DriverOpen) :
    List (String × Nat) → Except PyErr (Option (String × Nat))
  | [] => .ok none
  | (h, p) :: rest =>
    match tcpConnect (td h p) { kind := .tcp } with
    | (.error e, _) => .error e
    | (.ok true, _) => .ok (some (h, p))
    | (.ok false, i) =>
      match tcpDisconnect i with
      | (.error e, _) => .error e
      | (.ok _, _) => autoDetectTcpLoop td rest

/-- `AutoDetector.auto_detect` (auto_detector.py lines 141–176): try every
serial candidate in enumeration order; only when that loop exhausts without a
success, scan and try the TCP candidates in order; `None` when everything has
been tried and failed.  The candidate lists returned by
`find_serial_devices` / `find_tcp_devices` are environment-dependent and are
parameters, as are the driver-open behaviours. -/
def autoDetect (serialPorts : List String) (sd : String → DriverOpen)
    (tcpDevs : List (String × Nat)) (td : String → Nat → DriverOpen) :
    Except PyErr (Option DetectedDevice) :=
  match autoDetectSerialLoop sd serialPorts with
  | .error e => .error e
  | .ok (some p) => .ok (some (.serialDev p))
  | .ok none =>
    match autoDetectTcpLoop td tcpDevs with
    | .error e => .error e
    | .ok (some (h, p)) => .ok (some (.tcpDev h p))
    | .ok none => .ok none

/-- State of the connected interface object that `auto_detect` returns for a
detected device.  The loops construct one fresh interface per candidate and
return the one whose `connect` succeeded; since they are deterministic, that
interface's state is recovered by re-applying the candidate's connect to a
fresh interface. -/
def detectedIfaceState (sd : String → DriverOpen)
    (td : String → Nat → DriverOpen) : DetectedDevice → IfaceState
  | .serialDev p => (serialConnect (sd p) { kind := .serial }).2
  | .tcpDev h p => (tcpConnect (td h p) { kind := .tcp }).2

/-- `ConnectionManager.auto_connect` (connection_manager.py lines 43–74):
run `AutoDetector.auto_detect()`; with a connected interface, call
`_set_interface` (where any previous transport gets disconnected), store
`{'type': 'auto'}` and emit CONNECTION_ESTABLISHED; with none, emit
CONNECTION_FAILED{'error': 'No devices found'}; any exception — from
`auto_detect` or from `_set_interface` — is caught by the method's `except`,
which emits CONNECTION_FAILED{'error': str(e)} and returns false. -/
def cmAutoConnect (serialPorts : List String) (sd : String → DriverOpen)
    (tcpDevs : List (String × Nat)) (td : String → Nat → DriverOpen)
    (st : CMState) : CMConnectResult :=
  match autoDetect serialPorts sd tcpDevs td with
  | .error e =>
    { ret := false, st := st,
      emitted := [(.connectionFailed, [("error", .str e.str)])],
      retired := none }
  | .ok none =>
    { ret := false, st := st,
      emitted := [(.connectionFailed, [("error", .str "No devices found")])],
      retired := none }
  | .ok (some dev) =>
    let i := detectedIfaceState sd td dev
    match cmSetInterface st i with
    | (.error e, st2, old2) =>
      { ret := false, st := st2,
        emitted := [(.connectionFailed, [("error", .str e.str)])],
        retired := old2 }
    | (.ok _, st2, old2) =>
      let st3 := { st2 with connParams := some .autoParams }
      { ret := true, st := st3,
        emitted := [(.connectionEstablished,
          [("interface_type",
            .str (match dev with
                  | .serialDev _ => "serial"
                  | .tcpDev _ _ => "tcp"))])],
        retired := old2 }

/-! ## Reconnection trigger
(`BaseInterface._update_status` → `ConnectionManager._on_connection_status_changed`) -/

/-- The `.value` string of a `ConnectionStatus` member. -/
def ConnectionStatus.pyValue : ConnectionStatus → String
  | .disconnected => "disconnected"
  | .connecting => "connecting"
  | .connected => "connected"
  | .failed => "failed"
  | .reconnecting => "reconnecting"

/-- How a Python callable behaves under a plain (non-awaited) call: a
synchronous function executes its body; calling an `async def` function only
creates a coroutine object, whose body runs when — and only when — the
coroutine is awaited or scheduled. -/
inductive CallbackStyle where
  | syncFn
  | asyncFn
deriving DecidableEq, Repr

/-- `ConnectionManager._on_connection_status_changed` (connection_manager.py
lines 272–293) is declared `async def`: this is the style of the connection
callback that `_set_interface` installs on the transport. -/
def connectionCallbackStyle : CallbackStyle := .asyncFn

/-- Body of `ConnectionManager._on_connection_status_changed`
(connection_manager.py lines 272–293), as it would execute if it were
actually run: on a Failed status with `_auto_reconnect` set and no live
reconnect task, create the `_attempt_reconnect` task; then emit
DEVICE_STATUS_CHANGED.  Returns (manager state, whether a reconnect task was
created, events emitted).  The `device_info` entry of the emitted data is
not modelled; the status string is. -/
def cmOnConnectionStatusChanged (status : ConnectionStatus) (st : CMState) :
    CMState × Bool × List Ev :=
  if status = ConnectionStatus.failed ∧ st.autoReconnect = true ∧
      st.reconnectTaskActive = false then
    ({ st with reconnectTaskActive := true }, true,
     [(.deviceStatusChanged, [("status", .str status.pyValue)])])
  else
    (st, false, [(.deviceStatusChanged, [("status", .str status.pyValue)])])

/-- The callback invocation `self._connection_callback(new_status)` inside
`BaseInterface._update_status` (base_interface.py line 108): a plain call.
When the installed callback is an `async def` (as
`_on_connection_status_changed` is), the call merely creates a coroutine that
nothing ever awaits, so the handler body never executes: no state change, no
task creation, no emission. -/
def invokeConnectionCallback (style : CallbackStyle)
    (status : ConnectionStatus) (st : CMState) : CMState × Bool × List Ev :=
  match style with
  | .syncFn => cmOnConnectionStatusChanged status st
  | .asyncFn => (st, false, [])

/-- A sequence of `_update_status` calls applied in order. -/
def applyUpdates (s : IfaceState) (l : List ConnectionStatus) : IfaceState :=
  l.foldl updateStatus s

/-- A Connected TCP transport, used as a concrete sample state. -/
def sampleTcpConnected : IfaceState := { kind := .tcp, status := .connected }

/-- A manager holding `sampleTcpConnected` as its active transport. -/
def sampleCM : CMState := { iface := some sampleTcpConnected }

/-! ## Device-info copying (`BaseInterface.device_info`) -/

/-- A tiny heap of Python dictionaries: references are addresses below
`next`; `mem` gives each dictionary's contents (string keys and values — the
claims only mutate and compare top-level entries). -/
structure Heap where
  next : Nat
  mem : Nat → List (String × String)

/-- Allocate a fresh dictionary holding `contents`. -/
def Heap.alloc (h : Heap) (contents : List (String × String)) : Nat × Heap :=
  (h.next,
   { next := h.next + 1,
     mem := fun r => if r = h.next then contents else h.mem r })

/-- Overwrite key `k` in an association list. -/
def setKey (l : List (String × String)) (k v : String) :
    List (String × String) :=
  (k, v) :: l.filter (fun p => decide (p.1 ≠ k))

/-- `dict[k] = v` on the dictionary at reference `r`. -/
def mutateDict (h : Heap) (r : Nat) (k v : String) : Heap :=
  { h with mem := fun n => if n = r then setKey (h.mem n) k v else h.mem n }

/-- The `device_info` property (base_interface.py lines 36–39):
`return self._device_info.copy()` — allocate a NEW dictionary with the same
(top-level) contents as the stored one, and return a reference to it.
`stored` is the reference held by `self._device_info`.
`ConnectionManager.get_device_info` (connection_manager.py lines 215–223)
returns exactly this copy when an interface is present. -/
def deviceInfoRead (stored : Nat) (h : Heap) : Nat × Heap :=
  h.alloc (h.mem stored)

/-! ## Helper lemmas -/

theorem updateStatus_status (s : IfaceState) (v : ConnectionStatus) :
    (updateStatus s v).status = v := by
  unfold updateStatus
  split
  · simp_all
  · rfl

theorem updateStatus_self (s : IfaceState) : updateStatus s s.status = s := by
  unfold updateStatus
  simp

theorem runCallbacks_eq_map (cbs : List Callback) (e : Ev) :
    runCallbacks cbs e = cbs.map (fun cb => (cb.id, e)) := by
  induction cbs with
  | nil => rfl
  | cons cb rest ih =>
    rcases cb with ⟨i, r⟩
    cases r <;> simp [runCallbacks, invokeCallback, ih]

theorem runBus_stopped (s : BusState) (ops : List BusOp)
    (h1 : s.running = false) (h2 : BusOp.start ∉ ops) :
    (runBus s ops).delivered = s.delivered ∧ (runBus s ops).running = false := by
  induction ops generalizing s with
  | nil => exact ⟨rfl, h1⟩
  | cons op rest ih =>
    have hop : op ≠ BusOp.start := fun h => h2 (h ▸ List.mem_cons_self _ _)
    have h2r : BusOp.start ∉ rest := fun h => h2 (List.mem_cons_of_mem _ h)
    have hstep : (stepBus s op).delivered = s.delivered ∧
        (stepBus s op).running = false := by
      cases op with
      | start => exact absurd rfl hop
      | stop => simp [stepBus, h1]
      | subscribe t cb => simp [stepBus, h1]
      | emit t d => simp [stepBus, h1]
      | processOne => simp [stepBus, h1]
    have hrun : runBus s (op :: rest) = runBus (stepBus s op) rest := rfl
    rw [hrun, ← hstep.1]
    exact ih (stepBus s op) hstep.2 h2r

theorem autoDetectTcpLoop_success (td : String → Nat → DriverOpen) :
    ∀ (devs : List (String × Nat)) (h : String) (p : Nat),
      autoDetectTcpLoop td devs = .ok (some (h, p)) → td h p = DriverOpen.ok := by
  intro devs
  induction devs with
  | nil =>
    intro h p hs
    simp [autoDetectTcpLoop] at hs
  | cons hd rest ih =>
    rcases hd with ⟨h0, p0⟩
    intro h p hs
    cases hd0 : td h0 p0 with
    | ok =>
      simp [autoDetectTcpLoop, hd0, tcpConnect, updateStatus] at hs
      rcases hs with ⟨hh, hp⟩
      rw [← hh, ← hp]
      exact hd0
    | retNone =>
      simp [autoDetectTcpLoop, hd0, tcpConnect, tcpDisconnect,
        updateStatus] at hs
      exact ih h p hs
    | raises m =>
      simp [autoDetectTcpLoop, hd0, tcpConnect, tcpDisconnect,
        updateStatus] at hs
      exact ih h p hs

/-! ## Claim theorems -/

/-- Claim C1: the claim says `Connect` never raises for either Transport variant and
on any failure returns false with status Failed.  The code contradicts its own
docstring ("Returns: True if connection successful, False otherwise") for the
Serial variant: `SerialInterface.connect` applies `await` to the `None`
returned by the synchronous `_update_status`, so for EVERY driver behaviour
and every starting state it raises `TypeError` to its caller (the status does
end up Failed, but no boolean is ever returned). -/
theorem serialConnect_always_raises_typeError (d : DriverOpen) (s : IfaceState) :
    (serialConnect d s).1 = Except.error PyErr.typeError ∧
    (serialConnect d s).2.status = ConnectionStatus.failed := by
  refine ⟨rfl, ?_⟩
  show (updateStatus (updateStatus s .connecting) .failed).status =
    ConnectionStatus.failed
  exact updateStatus_status _ _

/-- Claim C5: for every dequeued event, `EventBus._handle_event` invokes every
callback subscribed to the event's type exactly once, in subscription order,
with that event — the invocation list is exactly the per-type subscriber list
mapped to invocations, regardless of which callbacks raise (a raising
callback is caught and the remaining callbacks still run). -/
theorem handleEvent_invokes_all_in_order (subs : List (EventKind × Callback))
    (e : Ev) :
    handleEvent subs e = (subscribersFor subs e.1).map (fun cb => (cb.id, e)) :=
  runCallbacks_eq_map _ _

/-- Claim C9: `BaseInterface._update_status` fires the status-change callback at
most once per distinct consecutive status value: updating to the value the
status already holds changes nothing and invokes no callback (first
conjunct), a repeated consecutive update is absorbed (second conjunct), and a
single update produces at most one callback invocation (third conjunct). -/
theorem updateStatus_once_per_distinct_value (s : IfaceState)
    (v : ConnectionStatus) (l : List ConnectionStatus) :
    updateStatus s s.status = s ∧
    applyUpdates s (v :: v :: l) = applyUpdates s (v :: l) ∧
    (updateStatus s v).notifications.length ≤ s.notifications.length + 1 := by
  refine ⟨updateStatus_self s, ?_, ?_⟩
  · show applyUpdates (updateStatus (updateStatus s v) v) l =
      applyUpdates (updateStatus s v) l
    have hv : (updateStatus s v).status = v := updateStatus_status s v
    have habsorb : updateStatus (updateStatus s v) v = updateStatus s v := by
      calc updateStatus (updateStatus s v) v
          = updateStatus (updateStatus s v) (updateStatus s v).status := by
            rw [hv]
        _ = updateStatus s v := updateStatus_self _
    rw [habsorb]
  · unfold updateStatus
    split
    · omega
    · split <;> simp

/-- Claim C2 counterexample: the claim says events still queued when `stop` is
called are discarded and never delivered, even after a later `start`.  At this
explicit input — subscribe, start, emit, stop (event still queued), start,
process — the pre-stop event IS delivered to the subscriber: `EventBus.stop`
only cancels the consumer and never drains `_event_queue`, so a restarted
consumer replays the old queue. -/
theorem stop_does_not_discard_queue :
    (runBus {} [BusOp.subscribe .packetSent { id := 1 }, BusOp.start,
        BusOp.emit .packetSent [], BusOp.stop, BusOp.start,
        BusOp.processOne]).delivered
      = [(1, (EventKind.packetSent, []))] := by
  rfl

/-- Claim C2 amended: `stop` leaves the queue intact; while the bus is stopped (and
until a `start` occurs) nothing is delivered, but the queued events survive
and are delivered after a subsequent `start`. -/
theorem stopped_bus_delivers_nothing (s2 s : BusState) (ops : List BusOp)
    (h1 : s.running = false) (h2 : BusOp.start ∉ ops) :
    (stepBus s2 BusOp.stop).queue = s2.queue ∧
    (runBus s ops).delivered = s.delivered ∧
    (runBus s ops).running = false := by
  refine ⟨?_, runBus_stopped s ops h1 h2⟩
  have hstop : stepBus s2 BusOp.stop =
      if s2.running then { s2 with running := false } else s2 := rfl
  rw [hstop]
  split <;> rfl

/-- Claim C2 amended, witnessed at a concrete stopped bus and a concrete
start-free operation sequence. -/
theorem stopped_bus_delivers_nothing_witness :
    (({ queue := [(EventKind.packetSent, [])] } : BusState).running = false ∧
      BusOp.start ∉ [BusOp.emit EventKind.packetFailed [], BusOp.stop,
        BusOp.processOne]) ∧
    ((stepBus ({ running := true } : BusState) BusOp.stop).queue
        = ({ running := true } : BusState).queue ∧
      (runBus ({ queue := [(EventKind.packetSent, [])] } : BusState)
          [BusOp.emit EventKind.packetFailed [], BusOp.stop,
            BusOp.processOne]).delivered
        = ({ queue := [(EventKind.packetSent, [])] } : BusState).delivered ∧
      (runBus ({ queue := [(EventKind.packetSent, [])] } : BusState)
          [BusOp.emit EventKind.packetFailed [], BusOp.stop,
            BusOp.processOne]).running = false) :=
  ⟨⟨rfl, by decide⟩,
   stopped_bus_delivers_nothing ({ running := true } : BusState)
     ({ queue := [(EventKind.packetSent, [])] } : BusState)
     [BusOp.emit EventKind.packetFailed [], BusOp.stop, BusOp.processOne]
     rfl (by decide)⟩

/-- Claim C3 counterexample: the claim says every connect operation FIRST
disconnects the existing active Transport, so a previously active Transport
is never left connected after a new connect attempt.  At this explicit input
— an installed, Connected TCP transport, and `connect_tcp` to a new host
whose driver open raises — the attempt returns false and the previous
transport is still installed with status Connected and untouched: the code
connects the new transport first and disconnects the old one only inside
`_set_interface`, which is reached only on success. -/
theorem failed_connect_leaves_old_transport_connected :
    cmConnectTcp "192.168.1.9" 4403 (DriverOpen.raises "connection refused")
      { iface := some
          { kind := .tcp, status := .connected, hasInterface := true,
            monitorStarted := true, packetCallbackSet := true,
            connectionCallbackSet := true, deviceInfoSet := true },
        connParams := some (.tcpParams "192.168.1.5" 4403) }
      = { ret := false,
          st :=
            { iface := some
                { kind := .tcp, status := .connected, hasInterface := true,
                  monitorStarted := true, packetCallbackSet := true,
                  connectionCallbackSet := true, deviceInfoSet := true },
              connParams := some (.tcpParams "192.168.1.5" 4403) },
          emitted := [(.connectionFailed,
            [("error", .str "Failed to connect to 192.168.1.9:4403")])],
          retired := none } := by
  rfl

/-- Claim C3 amended: at most one Transport is installed at any time, and
the previous Transport is disconnected only inside `_set_interface` — i.e.
only after the new Transport's Connect has already succeeded, never before
the attempt.  ConnectSerial can never install a new transport: the fresh
transport's Connect always raises, the error is caught, false is returned
and the manager state is untouched (conjuncts 1–3).  For ConnectTCP and
AutoConnect: on a true return the previous transport was TCP and was
disconnected (retired with status Disconnected) before the new Connected
transport was installed (conjuncts 4 and 6); on a false return the previous
transport is still installed — untouched, or, when it was serial and the new
Connect had succeeded, mutated to Disconnected by its own raising disconnect
with the new transport never installed (conjuncts 5 and 7). -/
theorem connect_ops_disconnect_old_only_after_success
    (st : CMState) (old : IfaceState) (p : String) (ds : DriverOpen)
    (host : String) (port : Nat) (d : DriverOpen)
    (sp : List String) (sd : String → DriverOpen)
    (tds : List (String × Nat)) (td : String → Nat → DriverOpen)
    (h1 : st.iface = some old) :
    (cmConnectSerial p ds st).ret = false ∧
    (cmConnectSerial p ds st).st = st ∧
    (cmConnectSerial p ds st).retired = none ∧
    ((cmConnectTcp host port d st).ret = true →
      old.kind = .tcp ∧
      (∃ old2, (cmConnectTcp host port d st).retired = some old2 ∧
        old2.status = ConnectionStatus.disconnected) ∧
      ∃ ni, (cmConnectTcp host port d st).st.iface = some ni ∧
        ni.status = ConnectionStatus.connected) ∧
    ((cmConnectTcp host port d st).ret = false →
      (cmConnectTcp host port d st).st.iface = some old ∨
      (old.kind = .serial ∧
        ∃ old2, (cmConnectTcp host port d st).st.iface = some old2 ∧
          old2.status = ConnectionStatus.disconnected)) ∧
    ((cmAutoConnect sp sd tds td st).ret = true →
      old.kind = .tcp ∧
      (∃ old2, (cmAutoConnect sp sd tds td st).retired = some old2 ∧
        old2.status = ConnectionStatus.disconnected) ∧
      ∃ ni, (cmAutoConnect sp sd tds td st).st.iface = some ni ∧
        ni.status = ConnectionStatus.connected) ∧
    ((cmAutoConnect sp sd tds td st).ret = false →
      (cmAutoConnect sp sd tds td st).st.iface = some old ∨
      (old.kind = .serial ∧
        ∃ old2, (cmAutoConnect sp sd tds td st).st.iface = some old2 ∧
          old2.status = ConnectionStatus.disconnected)) := by
  rcases st with ⟨ifc, rta, ar, cp⟩
  rcases old with ⟨k, stt, hi, mo, pc, cc, di, no⟩
  simp only at h1
  subst h1
  refine ⟨rfl, rfl, rfl, ?_, ?_, ?_, ?_⟩
  · intro htrue
    cases k with
    | serial =>
      cases d with
      | ok => exact Bool.noConfusion htrue
      | retNone => exact Bool.noConfusion htrue
      | raises m => exact Bool.noConfusion htrue
    | tcp =>
      cases d with
      | ok =>
        exact ⟨rfl, ⟨_, rfl, updateStatus_status _ _⟩, _, rfl,
          updateStatus_status _ _⟩
      | retNone => exact Bool.noConfusion htrue
      | raises m => exact Bool.noConfusion htrue
  · intro hfalse
    cases k with
    | serial =>
      cases d with
      | ok => exact Or.inr ⟨rfl, _, rfl, updateStatus_status _ _⟩
      | retNone => exact Or.inl rfl
      | raises m => exact Or.inl rfl
    | tcp =>
      cases d with
      | ok => exact Bool.noConfusion hfalse
      | retNone => exact Or.inl rfl
      | raises m => exact Or.inl rfl
  · intro htrue
    cases sp with
    | cons p0 rest => exact Bool.noConfusion htrue
    | nil =>
      cases hT : autoDetectTcpLoop td tds with
      | error e =>
        simp [cmAutoConnect, autoDetect, autoDetectSerialLoop, hT] at htrue
      | ok o =>
        cases o with
        | none =>
          simp [cmAutoConnect, autoDetect, autoDetectSerialLoop, hT] at htrue
        | some hp =>
          rcases hp with ⟨h0, p0⟩
          have hok : td h0 p0 = DriverOpen.ok :=
            autoDetectTcpLoop_success td tds h0 p0 hT
          cases k with
          | serial =>
            simp [cmAutoConnect, autoDetect, autoDetectSerialLoop, hT,
              cmSetInterface, ifaceDisconnect, serialDisconnect,
              awaitSyncNone, detectedIfaceState] at htrue
          | tcp =>
            simp [cmAutoConnect, autoDetect, autoDetectSerialLoop, hT,
              detectedIfaceState, hok, tcpConnect, cmSetInterface,
              ifaceDisconnect, tcpDisconnect, updateStatus_status]
  · intro hfalse
    cases sp with
    | cons p0 rest => exact Or.inl rfl
    | nil =>
      cases hT : autoDetectTcpLoop td tds with
      | error e =>
        simp [cmAutoConnect, autoDetect, autoDetectSerialLoop, hT]
      | ok o =>
        cases o with
        | none =>
          simp [cmAutoConnect, autoDetect, autoDetectSerialLoop, hT]
        | some hp =>
          rcases hp with ⟨h0, p0⟩
          cases k with
          | serial =>
            simp [cmAutoConnect, autoDetect, autoDetectSerialLoop, hT,
              detectedIfaceState, cmSetInterface, ifaceDisconnect,
              serialDisconnect, awaitSyncNone, updateStatus_status]
          | tcp =>
            have hok : td h0 p0 = DriverOpen.ok :=
              autoDetectTcpLoop_success td tds h0 p0 hT
            simp [cmAutoConnect, autoDetect, autoDetectSerialLoop, hT,
              detectedIfaceState, hok, tcpConnect, cmSetInterface,
              ifaceDisconnect, tcpDisconnect] at hfalse

/-- Claim C3 amended, witnessed at a manager holding a Connected TCP
transport, with a successful TCP connect, a serial connect attempt and an
auto-connect over one reachable TCP candidate. -/
theorem connect_ops_disconnect_old_witness :
    sampleCM.iface = some sampleTcpConnected ∧
    ((cmConnectSerial "/dev/ttyUSB0" DriverOpen.ok sampleCM).ret = false ∧
    (cmConnectSerial "/dev/ttyUSB0" DriverOpen.ok sampleCM).st = sampleCM ∧
    (cmConnectSerial "/dev/ttyUSB0" DriverOpen.ok sampleCM).retired = none ∧
    ((cmConnectTcp "10.0.0.2" 4403 DriverOpen.ok sampleCM).ret = true →
      sampleTcpConnected.kind = .tcp ∧
      (∃ old2, (cmConnectTcp "10.0.0.2" 4403 DriverOpen.ok sampleCM).retired
          = some old2 ∧
        old2.status = ConnectionStatus.disconnected) ∧
      ∃ ni, (cmConnectTcp "10.0.0.2" 4403 DriverOpen.ok sampleCM).st.iface
          = some ni ∧
        ni.status = ConnectionStatus.connected) ∧
    ((cmConnectTcp "10.0.0.2" 4403 DriverOpen.ok sampleCM).ret = false →
      (cmConnectTcp "10.0.0.2" 4403 DriverOpen.ok sampleCM).st.iface
        = some sampleTcpConnected ∨
      (sampleTcpConnected.kind = .serial ∧
        ∃ old2, (cmConnectTcp "10.0.0.2" 4403 DriverOpen.ok sampleCM).st.iface
            = some old2 ∧
          old2.status = ConnectionStatus.disconnected)) ∧
    ((cmAutoConnect [] (fun _ => DriverOpen.ok) [("192.168.1.50", 4403)]
        (fun _ _ => DriverOpen.ok) sampleCM).ret = true →
      sampleTcpConnected.kind = .tcp ∧
      (∃ old2, (cmAutoConnect [] (fun _ => DriverOpen.ok)
            [("192.168.1.50", 4403)] (fun _ _ => DriverOpen.ok)
            sampleCM).retired = some old2 ∧
        old2.status = ConnectionStatus.disconnected) ∧
      ∃ ni, (cmAutoConnect [] (fun _ => DriverOpen.ok)
            [("192.168.1.50", 4403)] (fun _ _ => DriverOpen.ok)
            sampleCM).st.iface = some ni ∧
        ni.status = ConnectionStatus.connected) ∧
    ((cmAutoConnect [] (fun _ => DriverOpen.ok) [("192.168.1.50", 4403)]
        (fun _ _ => DriverOpen.ok) sampleCM).ret = false →
      (cmAutoConnect [] (fun _ => DriverOpen.ok) [("192.168.1.50", 4403)]
          (fun _ _ => DriverOpen.ok) sampleCM).st.iface
        = some sampleTcpConnected ∨
      (sampleTcpConnected.kind = .serial ∧
        ∃ old2, (cmAutoConnect [] (fun _ => DriverOpen.ok)
              [("192.168.1.50", 4403)] (fun _ _ => DriverOpen.ok)
              sampleCM).st.iface = some old2 ∧
          old2.status = ConnectionStatus.disconnected))) :=
  ⟨rfl,
   connect_ops_disconnect_old_only_after_success sampleCM sampleTcpConnected
     "/dev/ttyUSB0" DriverOpen.ok "10.0.0.2" 4403 DriverOpen.ok
     [] (fun _ => DriverOpen.ok) [("192.168.1.50", 4403)]
     (fun _ _ => DriverOpen.ok) rfl⟩

/-- Claim C4: the claim says a Failed status report with auto-reconnect
enabled makes the manager wait 5 time-units and retry the last connection
parameters.  In the code this never happens: `_update_status` invokes the
installed connection callback with a plain call (base_interface.py line 108),
but `_on_connection_status_changed` is an `async def` — the call only creates
a coroutine that nothing awaits, so the handler body never executes: the
reconnect task is never created, the state is untouched and nothing is
emitted (first conjunct), although the handler body, had it actually run,
would have created the reconnect task (second conjunct).  (Moreover the
claimed raise-triggered second retry is dead code even under the intended
wiring: `connect_serial`/`connect_tcp`/`auto_connect` catch every exception
and return False, so `_attempt_reconnect`'s `except` branch cannot fire.) -/
theorem reconnect_never_triggered (st : CMState) (status : ConnectionStatus)
    (h1 : st.autoReconnect = true) (h2 : st.reconnectTaskActive = false) :
    invokeConnectionCallback connectionCallbackStyle status st
      = (st, false, []) ∧
    cmOnConnectionStatusChanged ConnectionStatus.failed st
      = ({ st with reconnectTaskActive := true }, true,
         [(.deviceStatusChanged,
           [("status", .str ConnectionStatus.failed.pyValue)])]) := by
  constructor
  · rfl
  · simp [cmOnConnectionStatusChanged, h1, h2]

/-- Claim C4, witnessed at a freshly constructed manager (auto-reconnect on,
no reconnect task) receiving a Failed report. -/
theorem reconnect_never_triggered_witness :
    (({} : CMState).autoReconnect = true ∧
      ({} : CMState).reconnectTaskActive = false) ∧
    (invokeConnectionCallback connectionCallbackStyle ConnectionStatus.failed
        {} = ({}, false, []) ∧
      cmOnConnectionStatusChanged ConnectionStatus.failed {}
        = ({ reconnectTaskActive := true }, true,
           [(.deviceStatusChanged,
             [("status", .str ConnectionStatus.failed.pyValue)])])) :=
  ⟨⟨rfl, rfl⟩,
   reconnect_never_triggered {} ConnectionStatus.failed rfl rfl⟩

/-- Claim C6: the claim (and the docstring of `auto_detect`) says the first serial
candidate whose Connect succeeds is returned, TCP never being attempted.
At the failing input — one serial candidate whose driver open succeeds and
one reachable TCP candidate — `auto_detect` instead raises `TypeError`: the
`SerialInterface.connect` it calls always raises (the `await` applied to the
synchronous `_update_status`), and nothing in `auto_detect` catches it, so no
Transport is ever returned. -/
theorem autoDetect_raises_on_serial_candidate :
    autoDetect ["/dev/ttyUSB0"] (fun _ => DriverOpen.ok)
      [("192.168.1.50", 4403)] (fun _ _ => DriverOpen.ok)
      = Except.error PyErr.typeError := by
  rfl

/-- Claim C7: whenever `is_connected` is false, `ConnectionManager.send_message`
returns false, emits exactly one PACKET_FAILED event with data
`{'error': 'Not connected'}`, performs no operation on any transport and
leaves the manager state unchanged — for every text, destination and
would-be transport outcome. -/
theorem sendMessage_disconnected (text : String) (destination : Option String)
    (sendOutcome : Except PyErr Bool) (st : CMState)
    (h : cmIsConnected st = false) :
    cmSendMessage text destination sendOutcome st
      = { ret := false, st := st,
          emitted := [(.packetFailed, [("error", .str "Not connected")])],
          transportSendCalled := false } := by
  unfold cmSendMessage
  rw [h]
  rfl

/-- Claim C7, witnessed at a freshly constructed manager (no transport). -/
theorem sendMessage_disconnected_witness :
    cmIsConnected {} = false ∧
    cmSendMessage "hello" none (Except.ok true) {}
      = { ret := false, st := {},
          emitted := [(.packetFailed, [("error", .str "Not connected")])],
          transportSendCalled := false } :=
  ⟨rfl, sendMessage_disconnected "hello" none (Except.ok true) {} rfl⟩

/-- Claim C8: the claim says `ConnectionManager.disconnect` disconnects the active
transport, clears the stored parameters and emits
CONNECTION_LOST{'reason': 'user_requested'}.  At the failing input — an
active, Connected Serial transport — the call instead propagates `TypeError`
(from `SerialInterface.disconnect`'s `await` of the synchronous
`_update_status`), emits nothing, and leaves `_connection_params` set; only
auto-reconnect is disabled and the transport partially torn down.  (With no
active transport, or a TCP one, the method does behave as claimed.) -/
theorem cmDisconnect_serial_raises :
    cmDisconnect
      { iface := some
          { kind := .serial, status := .connected, hasInterface := true,
            monitorStarted := true, packetCallbackSet := true,
            connectionCallbackSet := true, deviceInfoSet := true },
        connParams := some (.serialParams "/dev/ttyUSB0") }
      = { err := Except.error PyErr.typeError,
          st :=
            { iface := some
                { kind := .serial, status := .disconnected,
                  hasInterface := false, monitorStarted := false,
                  packetCallbackSet := true, connectionCallbackSet := true,
                  deviceInfoSet := true,
                  notifications := [.disconnected] },
              reconnectTaskActive := false, autoReconnect := false,
              connParams := some (.serialParams "/dev/ttyUSB0") },
          emitted := [] } := by
  rfl

/-- Claim C10: `BaseInterface.device_info` returns a copy of the stored metadata
dictionary: after mutating the returned dictionary, the stored dictionary's
contents are unchanged (first conjunct) and a subsequent `device_info` read
still returns the original contents (second conjunct).  The hypothesis says
the stored dictionary is an allocated reference. -/
theorem deviceInfo_returns_copy (stored : Nat) (h : Heap) (k v : String)
    (hw : stored < h.next) :
    (mutateDict (deviceInfoRead stored h).2 (deviceInfoRead stored h).1 k v).mem
        stored = h.mem stored ∧
    (deviceInfoRead stored
        (mutateDict (deviceInfoRead stored h).2 (deviceInfoRead stored h).1
          k v)).2.mem
      (deviceInfoRead stored
        (mutateDict (deviceInfoRead stored h).2 (deviceInfoRead stored h).1
          k v)).1
      = h.mem stored := by
  have hne : stored ≠ h.next := Nat.ne_of_lt hw
  constructor
  · simp [deviceInfoRead, Heap.alloc, mutateDict, hne]
  · simp [deviceInfoRead, Heap.alloc, mutateDict, hne]

/-- Claim C10, witnessed at a one-dictionary heap. -/
theorem deviceInfo_returns_copy_witness :
    0 < ({ next := 1, mem := fun _ => [("type", "serial")] } : Heap).next ∧
    ((mutateDict
        (deviceInfoRead 0
          { next := 1, mem := fun _ => [("type", "serial")] }).2
        (deviceInfoRead 0
          { next := 1, mem := fun _ => [("type", "serial")] }).1
        "type" "tcp").mem 0
      = ({ next := 1, mem := fun _ => [("type", "serial")] } : Heap).mem 0 ∧
    (deviceInfoRead 0
        (mutateDict
          (deviceInfoRead 0
            { next := 1, mem := fun _ => [("type", "serial")] }).2
          (deviceInfoRead 0
            { next := 1, mem := fun _ => [("type", "serial")] }).1
          "type" "tcp")).2.mem
      (deviceInfoRead 0
        (mutateDict
          (deviceInfoRead 0
            { next := 1, mem := fun _ => [("type", "serial")] }).2
          (deviceInfoRead 0
            { next := 1, mem := fun _ => [("type", "serial")] }).1
          "type" "tcp")).1
      = ({ next := 1, mem := fun _ => [("type", "serial")] } : Heap).mem 0) :=
  ⟨by decide,
   deviceInfo_returns_copy 0
     { next := 1, mem := fun _ => [("type", "serial")] } "type" "tcp"
     (by decide)⟩

end Meshling
